import Mathlib

set_option maxRecDepth 8000
set_option maxHeartbeats 2000000

/-!
Shallow embedding of `SkRateLimiterService`
(src/packages/backend/src/server/api/SkRateLimiterService.ts).

JavaScript numbers are modelled as rationals (`ℚ`); `Math.floor`,
`Math.ceil`, `Math.round`, `Math.min`, `Math.max` become the corresponding
operations on `ℚ`.  The Redis counter store is modelled as a partial map
from keys to counters, and each limiter invocation returns, next to its
`LimitInfo`, the list of store operations (reads and writes) it performed,
so that effect claims (no read / no write) can be stated.
-/

namespace SkRateLimiter

/-- JS `Math.floor`, as a rational-valued function (JS numbers stay numbers). -/
def jsFloor (q : ℚ) : ℚ := (⌊q⌋ : ℤ)

/-- JS `Math.ceil`, as a rational-valued function. -/
def jsCeil (q : ℚ) : ℚ := (⌈q⌉ : ℤ)

/-- JS `Math.round`: rounds to the nearest integer, with ties rounded
towards positive infinity, i.e. `Math.round x = Math.floor (x + 0.5)`. -/
def jsRound (q : ℚ) : ℚ := jsFloor (q + 1/2)

/-- The JS constant `Number.MAX_SAFE_INTEGER`. -/
def maxSafeInteger : ℚ := 9007199254740991

/-- JS truthiness of an optional number: `undefined` and `0` are falsy. -/
def truthyNum : Option ℚ → Bool
  | none => false
  | some x => x ≠ 0

/-- The persisted counter record (`LimitCounter` in the source):
`t` is the timestamp of the last update, `c` the accumulated count. -/
structure LimitCounter where
  t : ℚ
  c : ℚ
deriving DecidableEq, Repr

/-- The result record (`LimitInfo` in the source). -/
structure LimitInfo where
  blocked : Bool
  remaining : ℚ
  resetSec : ℚ
  resetMs : ℚ
  fullResetSec : ℚ
  fullResetMs : ℚ
deriving DecidableEq, Repr

/-- A bucket rate limit (`RateLimit` in the source): `dripRate` defaults to
1000 and `dripSize` to 1 when absent. -/
structure RateLimit where
  key : String
  size : ℚ
  dripRate : Option ℚ := none
  dripSize : Option ℚ := none
deriving DecidableEq, Repr

/-- A legacy rate limit (`LegacyRateLimit` in the source): any of `max`,
`duration`, `minInterval` may be absent. -/
structure LegacyRateLimit where
  key : String
  max : Option ℚ := none
  duration : Option ℚ := none
  minInterval : Option ℚ := none
deriving DecidableEq, Repr

/-- Either kind of rule: `SupportedRateLimit = RateLimit | LegacyRateLimit`. -/
inductive SupportedRateLimit where
  | bucket (limit : RateLimit)
  | legacy (limit : LegacyRateLimit)
deriving DecidableEq, Repr

/-- The `key` field of either kind of rule. -/
def SupportedRateLimit.key : SupportedRateLimit → String
  | .bucket l => l.key
  | .legacy l => l.key

/-- Source predicate `hasMinLimit`: `minInterval` is present and truthy. -/
def hasMinLimit (limit : LegacyRateLimit) : Bool := truthyNum limit.minInterval

/-- The Redis store, as a partial map from keys to stored counters. -/
def Store : Type := String → Option LimitCounter

/-- The empty store: no counter exists for any key. -/
def Store.empty : Store := fun _ => none

/-- Store update: `set key counter` (the TTL is kept in the op trace only). -/
def Store.set (s : Store) (key : String) (counter : LimitCounter) : Store :=
  fun k => if k = key then some counter else s k

/-- A store holding a single counter. -/
def Store.single (key : String) (counter : LimitCounter) : Store :=
  Store.empty.set key counter

/-- One store operation performed by a limiter invocation. -/
inductive StoreOp where
  | read (key : String)
  | write (key : String) (counter : LimitCounter) (ttlMs : ℚ)
deriving DecidableEq, Repr

/-- Whether a store operation is a write. -/
def StoreOp.isWrite : StoreOp → Bool
  | .read _ => false
  | .write _ _ _ => true

/-- Apply the writes of an op trace to a store (reads change nothing). -/
def Store.applyOps (s : Store) : List StoreOp → Store
  | [] => s
  | .read _ :: rest => s.applyOps rest
  | .write key counter _ :: rest => (s.set key counter).applyOps rest

/-- Source function `createLimitKey`: the key is `rl_`, the actor and the
rule key joined by underscores, with the subject
appended when `subject` is present and truthy (the empty string is falsy
in JS, so a present-but-empty subject yields the bare key). -/
def createLimitKey (limit : SupportedRateLimit) (actor : String)
    (subject : Option String) : String :=
  match subject with
  | some s =>
      if s = "" then "rl_" ++ actor ++ "_" ++ limit.key
      else "rl_" ++ actor ++ "_" ++ limit.key ++ "_" ++ s
  | none => "rl_" ++ actor ++ "_" ++ limit.key

/-- Source function `getLimitCounter`: read the counter stored under the
key; an absent counter reads as `t = 0, c = 0`. -/
def getLimitCounter (store : Store) (limit : SupportedRateLimit)
    (actor : String) (subject : Option String) : LimitCounter :=
  (store (createLimitKey limit actor subject)).getD ⟨0, 0⟩

/-- The drip decay step of `limitBucket` (source lines 226–229): if the
count is positive, subtract `floor((now - t) / dripRate) * dripSize`,
clamped at zero. -/
def bucketDecay (dripRate dripSize : ℚ) (counter : LimitCounter)
    (now : ℚ) : ℚ :=
  if counter.c > 0 then
    max (counter.c - jsFloor ((now - counter.t) / dripRate) * dripSize) 0
  else counter.c

/-- Source function `limitBucket`: the leaky-bucket limiter.  Returns the `LimitInfo`
together with the store operations performed (one read, plus one write when
not blocked). -/
def limitBucket (limit : RateLimit) (actor : String) (factor : ℚ)
    (store : Store) (now : ℚ) : LimitInfo × List StoreOp :=
  let key := createLimitKey (.bucket limit) actor none
  let counter0 := getLimitCounter store (.bucket limit) actor none
  let dripRate := limit.dripRate.getD 1000
  let dripSize := limit.dripSize.getD 1
  let bucketSize := limit.size * factor
  let counter1 : LimitCounter :=
    { counter0 with c := bucketDecay dripRate dripSize counter0 now }
  let blocked : Bool := counter1.c ≥ bucketSize
  let counter2 : LimitCounter :=
    if blocked then counter1 else ⟨now, counter1.c + 1⟩
  let remaining := max (bucketSize - counter2.c) 0
  let resetMs := if remaining > 0 then 0 else max (dripRate - (now - counter2.t)) 0
  let resetSec := jsCeil (resetMs / 1000)
  let fullResetMs := jsCeil (counter2.c / dripSize) * dripRate
  let fullResetSec := jsCeil (fullResetMs / 1000)
  let info : LimitInfo :=
    { blocked := blocked, remaining := remaining, resetSec := resetSec,
      resetMs := resetMs, fullResetSec := fullResetSec, fullResetMs := fullResetMs }
  let ops :=
    if blocked then [StoreOp.read key]
    else [StoreOp.read key, StoreOp.write key counter2 fullResetMs]
  (info, ops)

/-- Source function `limitMin`: the minimum-interval limiter.  Reads the counter under the
`"min"` subcategory, lazily resets it when the interval has fully elapsed,
and allows `maxCalls = max(ceil(factor), 1)` calls per interval. -/
def limitMin (limit : LegacyRateLimit) (actor : String) (factor : ℚ)
    (store : Store) (now : ℚ) : LimitInfo × List StoreOp :=
  let key := createLimitKey (.legacy limit) actor (some "min")
  let minInterval := limit.minInterval.getD 0
  let counter0 := getLimitCounter store (.legacy limit) actor (some "min")
  let maxCalls := max (jsCeil factor) 1
  let counter1 : LimitCounter :=
    if counter0.c ≥ maxCalls ∧ now - counter0.t ≥ minInterval then
      { counter0 with c := 0 }
    else counter0
  let blocked : Bool := counter1.c ≥ maxCalls
  let counter2 : LimitCounter :=
    if blocked then counter1 else ⟨now, counter1.c + 1⟩
  let remaining := max (maxCalls - counter2.c) 0
  let fullResetMs := max (jsCeil (minInterval - (now - counter2.t))) 0
  let fullResetSec := jsCeil (fullResetMs / 1000)
  let resetMs := if remaining < 1 then fullResetMs else 0
  let resetSec := if remaining < 1 then fullResetSec else 0
  let info : LimitInfo :=
    { blocked := blocked, remaining := remaining, resetSec := resetSec,
      resetMs := resetMs, fullResetSec := fullResetSec, fullResetMs := fullResetMs }
  let ops :=
    if blocked then [StoreOp.read key]
    else [StoreOp.read key, StoreOp.write key counter2 resetMs]
  (info, ops)

/-- The bucket rule synthesized by `limitLegacy` from the `max` and
`duration` fields of a legacy rule: `size = max`, `dripRate = round(duration / max)`,
`dripSize` left to its default. -/
def legacyBucketRule (limit : LegacyRateLimit) : RateLimit :=
  { key := limit.key
    size := limit.max.getD 0
    dripRate := some (jsRound ((limit.duration.getD 0) / (limit.max.getD 0)))
    dripSize := none }

/-- Source function `limitLegacy`: runs the min-interval limiter when `minInterval` is
truthy, the synthesized bucket limiter when both `max` and `duration` are
truthy, and merges the results positionally (`lim1` is the first invoked
sub-limiter, `lim2` the second, as in the `Promise.all` of the source). -/
def limitLegacy (limit : LegacyRateLimit) (actor : String) (factor : ℚ)
    (store : Store) (now : ℚ) : LimitInfo × List StoreOp :=
  let promises : List (LimitInfo × List StoreOp) :=
    (if hasMinLimit limit then [limitMin limit actor factor store now] else []) ++
    (if truthyNum limit.max && truthyNum limit.duration then
      [limitBucket (legacyBucketRule limit) actor factor store now] else [])
  let lim1 := (promises.get? 0).map Prod.fst
  let lim2 := (promises.get? 1).map Prod.fst
  let info : LimitInfo :=
    { blocked := ((lim1.map (·.blocked)).getD false || (lim2.map (·.blocked)).getD false)
      remaining := min ((lim1.map (·.remaining)).getD 1) ((lim2.map (·.remaining)).getD 1)
      resetSec := max ((lim1.map (·.resetSec)).getD 0) ((lim2.map (·.resetSec)).getD 0)
      resetMs := max ((lim1.map (·.resetMs)).getD 0) ((lim2.map (·.resetMs)).getD 0)
      fullResetSec := max ((lim1.map (·.fullResetSec)).getD 0) ((lim2.map (·.fullResetSec)).getD 0)
      fullResetMs := max ((lim1.map (·.fullResetMs)).getD 0) ((lim2.map (·.fullResetMs)).getD 0) }
  (info, (promises.map Prod.snd).flatten)

/-- The `LimitInfo` returned by `limit` when rate limiting is disabled. -/
def disabledInfo : LimitInfo :=
  { blocked := false, remaining := maxSafeInteger, resetSec := 0,
    resetMs := 0, fullResetSec := 0, fullResetMs := 0 }

/-- Source method `limit`: the public entry point.  When the process-wide `disabled` flag
is set it short-circuits without any store operation; otherwise it
dispatches on the rule kind. -/
def limit (disabled : Bool) (rule : SupportedRateLimit) (actor : String)
    (factor : ℚ) (store : Store) (now : ℚ) : LimitInfo × List StoreOp :=
  if disabled then (disabledInfo, [])
  else
    match rule with
    | .legacy l => limitLegacy l actor factor store now
    | .bucket b => limitBucket b actor factor store now

/-- Run `limit` once per entry of `times`, applying the store writes of
each call before the read of the next call.  Returns the list of results and the
final store. -/
def simLimit (disabled : Bool) (rule : SupportedRateLimit) (actor : String)
    (factor : ℚ) (store : Store) : List ℚ → List LimitInfo × Store
  | [] => ([], store)
  | now :: rest =>
      let r := limit disabled rule actor factor store now
      let next := simLimit disabled rule actor factor (store.applyOps r.2) rest
      (r.1 :: next.1, next.2)

/-- The concrete bucket rule `size=5, dripRate=1000, dripSize=1` used by the
bucket test scenarios of the spec. -/
def bucketRule5 : RateLimit := ⟨"test", 5, some 1000, some 1⟩

/-- The concrete legacy rule `minInterval=5000` (no `max`/`duration`) used
by the min-interval test scenario of the spec. -/
def minRule5000 : LegacyRateLimit := ⟨"test", none, none, some 5000⟩

/-- The merge of two optional sub-limiter results, following the wording of
the spec: `blocked` is the OR with a missing sub-result treated as not
blocking, `remaining` the MIN with a missing sub-result contributing 1,
and each reset field the MAX with a missing sub-result contributing 0. -/
def specMerge (lim1 lim2 : Option LimitInfo) : LimitInfo :=
  { blocked := (lim1.map (·.blocked)).getD false || (lim2.map (·.blocked)).getD false
    remaining := min ((lim1.map (·.remaining)).getD 1) ((lim2.map (·.remaining)).getD 1)
    resetSec := max ((lim1.map (·.resetSec)).getD 0) ((lim2.map (·.resetSec)).getD 0)
    resetMs := max ((lim1.map (·.resetMs)).getD 0) ((lim2.map (·.resetMs)).getD 0)
    fullResetSec := max ((lim1.map (·.fullResetSec)).getD 0) ((lim2.map (·.fullResetSec)).getD 0)
    fullResetMs := max ((lim1.map (·.fullResetMs)).getD 0) ((lim2.map (·.fullResetMs)).getD 0) }

/-- A bucket rule of size 1: its single permitted call immediately fills
the bucket, so the successful call already reports a nonzero reset time. -/
def bucketRule1 : RateLimit := ⟨"test", 1, some 1000, some 1⟩

/-- The bucket rule the spec says is synthesized from a legacy rule:
`size = max`, `dripRate = round(duration / max)`, `dripSize = 1` (the
source leaves `dripSize` absent and the bucket limiter defaults it to 1;
here that default is made explicit). -/
def specSynthBucketRule (l : LegacyRateLimit) : RateLimit :=
  { key := l.key
    size := l.max.getD 0
    dripRate := some (jsRound ((l.duration.getD 0) / (l.max.getD 0)))
    dripSize := some 1 }

end SkRateLimiter

namespace SkRateLimiter

/-- C1: for a bucket rule with `size=5, dripRate=1000, dripSize=1` and a
fixed actor, starting from an absent counter with the store write of each
call applied before the read of the next call, five successive calls to `limit` at
the same time value return `blocked=false` with `remaining` equal to
4, 3, 2, 1, 0, and a sixth call at the same time returns `blocked=true`
with `remaining=0`. -/
theorem c1_bucket_monotonic_fill (actor : String) (now : ℚ) :
    ((simLimit false (.bucket bucketRule5) actor 1 Store.empty
        (List.replicate 6 now)).1.map fun i => (i.blocked, i.remaining)) =
      [(false, 4), (false, 3), (false, 2), (false, 1), (false, 0), (true, 0)] := by
  norm_num [simLimit, limit, limitBucket, getLimitCounter, createLimitKey,
    Store.applyOps, Store.set, Store.empty, bucketDecay, jsFloor, jsCeil,
    bucketRule5, sub_self, List.replicate]

/-- C2: for every legacy rule, actor and factor, the result of `limit` is
the merge of the sub-limiter results: `blocked` is the OR (missing treated
as not blocking), `remaining` the MIN (missing contributing 1), and the
four reset fields the MAX (missing contributing 0).  The min-interval
sub-limiter runs exactly when `minInterval` is set and truthy, the bucket
sub-limiter exactly when both `max` and `duration` are truthy, with
synthesized rule `size = max`, `dripRate = round(duration / max)` and
`dripSize` defaulting to 1. -/
theorem c2_legacy_merge (l : LegacyRateLimit) (actor : String) (factor : ℚ)
    (store : Store) (now : ℚ) :
    (limit false (.legacy l) actor factor store now).1 =
      specMerge
        (if hasMinLimit l then some (limitMin l actor factor store now).1 else none)
        (if truthyNum l.max && truthyNum l.duration then
          some (limitBucket (specSynthBucketRule l) actor factor store now).1
        else none) := by
  have hbucket : limitBucket (specSynthBucketRule l) actor factor store now =
      limitBucket (legacyBucketRule l) actor factor store now := by
    simp [limitBucket, specSynthBucketRule, legacyBucketRule, createLimitKey,
      getLimitCounter, SupportedRateLimit.key]
  rw [hbucket]
  by_cases hmin : hasMinLimit l = true <;>
    by_cases hmax : (truthyNum l.max && truthyNum l.duration) = true <;>
      simp [limit, limitLegacy, specMerge, hmin, hmax, min_comm, max_comm,
        Bool.or_comm]

/-- C3: for a legacy rule with `minInterval=5000`, `factor=1` and a fixed
actor, starting from an absent min counter with the write of each
non-blocked call applied before the next read: the first call returns `blocked=false`
and stores count 1; a second call at the same time returns `blocked=true`;
a third call made exactly 5000 ms after the first returns `blocked=false`
because the counter is lazily reset to 0 on read and then incremented,
so count 1 is stored again. -/
theorem c3_min_interval_lazy_reset (actor : String) (n0 : ℚ) :
    ((simLimit false (.legacy minRule5000) actor 1 Store.empty
        [n0, n0, n0 + 5000]).1.map fun i => i.blocked) = [false, true, false] ∧
    (simLimit false (.legacy minRule5000) actor 1 Store.empty [n0]).2
        (createLimitKey (.legacy minRule5000) actor (some "min")) = some ⟨n0, 1⟩ ∧
    (simLimit false (.legacy minRule5000) actor 1 Store.empty [n0, n0, n0 + 5000]).2
        (createLimitKey (.legacy minRule5000) actor (some "min")) = some ⟨n0 + 5000, 1⟩ := by
  norm_num [simLimit, limit, limitLegacy, limitMin, hasMinLimit, truthyNum,
    getLimitCounter, createLimitKey, Store.applyOps, Store.set, Store.empty,
    jsCeil, minRule5000, sub_self, add_sub_cancel_left]

/-- C4: for every rule, actor, factor and prior store state, when the
process-wide disabled flag is set, `limit` returns `blocked=false`,
`remaining = Number.MAX_SAFE_INTEGER`, all four reset fields 0, and
performs no store operation at all (no read, no write). -/
theorem c4_disabled_short_circuit (rule : SupportedRateLimit) (actor : String)
    (factor : ℚ) (store : Store) (now : ℚ) :
    limit true rule actor factor store now =
      ({ blocked := false, remaining := maxSafeInteger, resetSec := 0,
         resetMs := 0, fullResetSec := 0, fullResetMs := 0 }, []) := by
  simp [limit, disabledInfo]

/-- C8: for a bucket rule with `size=5, dripRate=1000, dripSize=1`, a call
for an actor whose stored counter is `{t, c=5}` made at time `t` is
blocked; the decay step at time `t + dripRate` reduces the count by one
drip to 4 (`max(c - floor((now-t)/dripRate) * dripSize, 0)`), and a call
made at `t + dripRate` returns `blocked=false`. -/
theorem c8_bucket_decay (actor : String) (t : ℚ) :
    (limitBucket bucketRule5 actor 1
        (Store.single (createLimitKey (.bucket bucketRule5) actor none) ⟨t, 5⟩)
        t).1.blocked = true ∧
    bucketDecay 1000 1 ⟨t, 5⟩ (t + 1000) = 4 ∧
    (limitBucket bucketRule5 actor 1
        (Store.single (createLimitKey (.bucket bucketRule5) actor none) ⟨t, 5⟩)
        (t + 1000)).1.blocked = false := by
  norm_num [limitBucket, getLimitCounter, createLimitKey, Store.single,
    Store.set, Store.empty, bucketDecay, jsFloor, bucketRule5, sub_self,
    add_sub_cancel_left]

/-- In the bucket limiter, a result with at least one call left reports
zero reset times. -/
theorem limitBucket_resets_zero (l : RateLimit) (actor : String) (factor : ℚ)
    (store : Store) (now : ℚ)
    (h : 1 ≤ (limitBucket l actor factor store now).1.remaining) :
    (limitBucket l actor factor store now).1.resetSec = 0 ∧
    (limitBucket l actor factor store now).1.resetMs = 0 := by
  simp only [limitBucket] at h ⊢
  rw [if_pos (lt_of_lt_of_le one_pos h)]
  norm_num [jsCeil]

/-- In the min-interval limiter, a result with at least one call left
reports zero reset times. -/
theorem limitMin_resets_zero (l : LegacyRateLimit) (actor : String) (factor : ℚ)
    (store : Store) (now : ℚ)
    (h : 1 ≤ (limitMin l actor factor store now).1.remaining) :
    (limitMin l actor factor store now).1.resetSec = 0 ∧
    (limitMin l actor factor store now).1.resetMs = 0 := by
  simp only [limitMin] at h ⊢
  rw [if_neg (not_lt.mpr h), if_neg (not_lt.mpr h)]
  exact ⟨rfl, rfl⟩

/-- In the legacy limiter, a merged result with at least one call left
reports zero reset times. -/
theorem limitLegacy_resets_zero (l : LegacyRateLimit) (actor : String)
    (factor : ℚ) (store : Store) (now : ℚ)
    (h : 1 ≤ (limitLegacy l actor factor store now).1.remaining) :
    (limitLegacy l actor factor store now).1.resetSec = 0 ∧
    (limitLegacy l actor factor store now).1.resetMs = 0 := by
  by_cases hmin : hasMinLimit l = true <;>
    by_cases hmax : (truthyNum l.max && truthyNum l.duration) = true <;>
      simp only [limitLegacy, hmin, hmax, Bool.false_eq_true, ite_true,
        ite_false, List.cons_append, List.nil_append, List.get?,
        Option.map, Option.getD] at h ⊢
  · obtain ⟨h1, h2⟩ := le_min_iff.mp h
    obtain ⟨s1, m1⟩ := limitMin_resets_zero l actor factor store now h1
    obtain ⟨s2, m2⟩ := limitBucket_resets_zero (legacyBucketRule l) actor factor store now h2
    rw [s1, m1, s2, m2]
    norm_num
  · obtain ⟨h1, _⟩ := le_min_iff.mp h
    obtain ⟨s1, m1⟩ := limitMin_resets_zero l actor factor store now h1
    rw [s1, m1]
    norm_num
  · obtain ⟨h1, _⟩ := le_min_iff.mp h
    obtain ⟨s1, m1⟩ := limitBucket_resets_zero (legacyBucketRule l) actor factor store now h1
    rw [s1, m1]
    norm_num
  · norm_num

/-- C5 counterexample: for a bucket rule of size 1, a fresh call returns
`blocked=false` but `resetMs=1000` and `resetSec=1`, so a non-blocked
result does not always carry zero reset times. -/
theorem c5_counterexample_nonblocked_reset :
    (limit false (.bucket bucketRule1) "actor1" 1 Store.empty 0).1.blocked = false ∧
    (limit false (.bucket bucketRule1) "actor1" 1 Store.empty 0).1.resetMs = 1000 ∧
    (limit false (.bucket bucketRule1) "actor1" 1 Store.empty 0).1.resetSec = 1 := by
  refine ⟨?_, ?_, ?_⟩ <;> with_unfolding_all decide

/-- C5 amended: for every rule, actor, factor and prior store state,
whenever `limit` returns a `LimitInfo` with `blocked=false` and
`remaining ≥ 1`, it also returns `resetSec=0` and `resetMs=0`.  (The
original claim, without the `remaining ≥ 1` qualification, fails when the
successful call itself fills the last slot.) -/
theorem c5_nonblocked_resets_zero (disabled : Bool) (rule : SupportedRateLimit)
    (actor : String) (factor : ℚ) (store : Store) (now : ℚ)
    (hblocked : (limit disabled rule actor factor store now).1.blocked = false)
    (hrem : 1 ≤ (limit disabled rule actor factor store now).1.remaining) :
    (limit disabled rule actor factor store now).1.resetSec = 0 ∧
    (limit disabled rule actor factor store now).1.resetMs = 0 := by
  cases disabled with
  | true => exact ⟨rfl, rfl⟩
  | false =>
      cases rule with
      | legacy l =>
          simp only [limit, Bool.false_eq_true, ite_false] at hrem ⊢
          exact limitLegacy_resets_zero l actor factor store now hrem
      | bucket b =>
          simp only [limit, Bool.false_eq_true, ite_false] at hrem ⊢
          exact limitBucket_resets_zero b actor factor store now hrem

/-- C6: for every rule, actor, factor and prior store state, when a
limiter invocation (bucket or min-interval) returns `blocked=true`, its
operation trace contains no store write: the persisted counter state is
exactly what was read. -/
theorem c6_no_write_when_blocked :
    (∀ (l : RateLimit) (actor : String) (factor : ℚ) (store : Store) (now : ℚ),
        (limitBucket l actor factor store now).1.blocked = true →
        ((limitBucket l actor factor store now).2.filter StoreOp.isWrite) = []) ∧
    (∀ (l : LegacyRateLimit) (actor : String) (factor : ℚ) (store : Store) (now : ℚ),
        (limitMin l actor factor store now).1.blocked = true →
        ((limitMin l actor factor store now).2.filter StoreOp.isWrite) = []) := by
  constructor
  · intro l actor factor store now h
    simp only [limitBucket] at h ⊢
    rw [h]
    simp [StoreOp.isWrite]
  · intro l actor factor store now h
    simp only [limitMin] at h ⊢
    rw [h]
    simp [StoreOp.isWrite]

/-- C6 witness: a blocked bucket call (full bucket) and a blocked
min-interval call (interval not yet elapsed) both leave write-free traces. -/
theorem c6_no_write_when_blocked_witness :
    ((limitBucket bucketRule5 "actor1" 1
        (Store.single (createLimitKey (.bucket bucketRule5) "actor1" none) ⟨0, 5⟩)
        0).1.blocked = true ∧
     ((limitBucket bucketRule5 "actor1" 1
        (Store.single (createLimitKey (.bucket bucketRule5) "actor1" none) ⟨0, 5⟩)
        0).2.filter StoreOp.isWrite) = []) ∧
    ((limitMin minRule5000 "actor1" 1
        (Store.single (createLimitKey (.legacy minRule5000) "actor1" (some "min")) ⟨0, 1⟩)
        0).1.blocked = true ∧
     ((limitMin minRule5000 "actor1" 1
        (Store.single (createLimitKey (.legacy minRule5000) "actor1" (some "min")) ⟨0, 1⟩)
        0).2.filter StoreOp.isWrite) = []) :=
  ⟨⟨by with_unfolding_all decide,
    c6_no_write_when_blocked.1 bucketRule5 "actor1" 1
      (Store.single (createLimitKey (.bucket bucketRule5) "actor1" none) ⟨0, 5⟩) 0
      (by with_unfolding_all decide)⟩,
   ⟨by with_unfolding_all decide,
    c6_no_write_when_blocked.2 minRule5000 "actor1" 1
      (Store.single (createLimitKey (.legacy minRule5000) "actor1" (some "min")) ⟨0, 1⟩) 0
      (by with_unfolding_all decide)⟩⟩

/-- C7: in the bucket limiter, factor scales only the effective capacity
(`capacity = size * factor`) and never the amount added per call, which is
always exactly 1 (the written count is the decayed count plus 1, for every
factor); and for a bucket rule with `size=5` and `factor=2`, starting from
an absent counter with writes applied sequentially at a fixed time, 10
successive calls return `blocked=false` and the 11th returns
`blocked=true`. -/
theorem c7_factor_scales_capacity_only :
    (∀ (l : RateLimit) (actor : String) (factor : ℚ) (store : Store) (now : ℚ),
        (limitBucket l actor factor store now).1.blocked = false →
        ∃ ttl, (limitBucket l actor factor store now).2 =
          [StoreOp.read (createLimitKey (.bucket l) actor none),
           StoreOp.write (createLimitKey (.bucket l) actor none)
             ⟨now, bucketDecay (l.dripRate.getD 1000) (l.dripSize.getD 1)
                 (getLimitCounter store (.bucket l) actor none) now + 1⟩ ttl]) ∧
    (((simLimit false (.bucket bucketRule5) "actor1" 2 Store.empty
        (List.replicate 11 0)).1.map fun i => i.blocked) =
      List.replicate 10 false ++ [true]) := by
  constructor
  · intro l actor factor store now h
    simp only [limitBucket] at h ⊢
    simp [h]
  · with_unfolding_all decide

/-- C7 witness: a fresh non-blocked call writes back the decayed count
plus exactly 1. -/
theorem c7_factor_scales_capacity_only_witness :
    (limitBucket bucketRule5 "actor1" 1 Store.empty 0).1.blocked = false ∧
    ∃ ttl, (limitBucket bucketRule5 "actor1" 1 Store.empty 0).2 =
      [StoreOp.read (createLimitKey (.bucket bucketRule5) "actor1" none),
       StoreOp.write (createLimitKey (.bucket bucketRule5) "actor1" none)
         ⟨0, bucketDecay (bucketRule5.dripRate.getD 1000) (bucketRule5.dripSize.getD 1)
             (getLimitCounter Store.empty (.bucket bucketRule5) "actor1" none) 0 + 1⟩ ttl] :=
  ⟨by with_unfolding_all decide,
   c7_factor_scales_capacity_only.1 bucketRule5 "actor1" 1 Store.empty 0
     (by with_unfolding_all decide)⟩

/-- C9 counterexample: a present-but-empty subcategory is falsy in JS, so
`createLimitKey` returns the bare key instead of appending the separator
and the (empty) subcategory, contradicting the claim read over every
optional subcategory. -/
theorem c9_counterexample_empty_subcategory :
    createLimitKey (.bucket bucketRule5) "actor1" (some "") ≠
      "rl_" ++ "actor1" ++ "_" ++ (SupportedRateLimit.bucket bucketRule5).key ++ "_" ++ "" := by
  with_unfolding_all decide

/-- C9 amended: for every rule, actor and optional subcategory, the store
key is `"rl_" ++ actor ++ "_" ++ rule.key` when no subcategory is present,
and `"rl_" ++ actor ++ "_" ++ rule.key ++ "_" ++ subcategory` when a
non-empty one is present (a present-but-empty subcategory is falsy and
yields the bare key); in particular the bucket counter and the
min-interval counter (subcategory `"min"`) for the same rule key and
actor use distinct keys. -/
theorem c9_limit_key_namespacing (rule : SupportedRateLimit) (actor s : String)
    (hs : s ≠ "") :
    createLimitKey rule actor none = "rl_" ++ actor ++ "_" ++ rule.key ∧
    createLimitKey rule actor (some s) = "rl_" ++ actor ++ "_" ++ rule.key ++ "_" ++ s ∧
    createLimitKey rule actor (some "min") ≠ createLimitKey rule actor none := by
  refine ⟨rfl, by simp [createLimitKey, hs], ?_⟩
  have h1 : createLimitKey rule actor (some "min") =
      "rl_" ++ actor ++ "_" ++ rule.key ++ "_" ++ "min" := by
    simp [createLimitKey]
  rw [h1, createLimitKey]
  intro hcontra
  have hlen := congrArg String.length hcontra
  have hu : "_".length = 1 := rfl
  have hm : "min".length = 3 := rfl
  simp only [String.length_append, hu, hm] at hlen
  omega

/-- C9 witness: the amended key construction at the concrete subcategory
`"min"`. -/
theorem c9_limit_key_namespacing_witness :
    createLimitKey (.bucket bucketRule5) "actor1" none =
      "rl_" ++ "actor1" ++ "_" ++ (SupportedRateLimit.bucket bucketRule5).key ∧
    createLimitKey (.bucket bucketRule5) "actor1" (some "min") =
      "rl_" ++ "actor1" ++ "_" ++ (SupportedRateLimit.bucket bucketRule5).key ++ "_" ++ "min" ∧
    createLimitKey (.bucket bucketRule5) "actor1" (some "min") ≠
      createLimitKey (.bucket bucketRule5) "actor1" none :=
  c9_limit_key_namespacing (.bucket bucketRule5) "actor1" "min" (by decide)

/-- C10: with `factor = 0` the two limiters disagree at the edge: the
bucket limiter blocks even with no prior counter (effective capacity
`size * 0 = 0` and the fresh count 0 already satisfies
`count >= capacity`), while the min-interval limiter still permits the
call because `maxCalls = max(ceil(factor), 1)` is floored at 1. -/
theorem c10_factor_zero_edge :
    (∀ (b : RateLimit) (actor : String) (store : Store) (now : ℚ),
        store (createLimitKey (.bucket b) actor none) = none →
        (limitBucket b actor 0 store now).1.blocked = true) ∧
    (∀ (l : LegacyRateLimit) (actor : String) (store : Store) (now : ℚ),
        store (createLimitKey (.legacy l) actor (some "min")) = none →
        (limitMin l actor 0 store now).1.blocked = false) := by
  constructor
  · intro b actor store now h
    simp [limitBucket, getLimitCounter, h, bucketDecay, mul_zero]
  · intro l actor store now h
    norm_num [limitMin, getLimitCounter, h, jsCeil]

/-- C10 witness: the empty store has no counter under either key, the
fresh bucket call with factor 0 blocks, and the fresh min-interval call
with factor 0 does not. -/
theorem c10_factor_zero_edge_witness :
    (Store.empty (createLimitKey (.bucket bucketRule5) "actor1" none) = none ∧
     (limitBucket bucketRule5 "actor1" 0 Store.empty 0).1.blocked = true) ∧
    (Store.empty (createLimitKey (.legacy minRule5000) "actor1" (some "min")) = none ∧
     (limitMin minRule5000 "actor1" 0 Store.empty 0).1.blocked = false) :=
  ⟨⟨rfl, c10_factor_zero_edge.1 bucketRule5 "actor1" Store.empty 0 rfl⟩,
   ⟨rfl, c10_factor_zero_edge.2 minRule5000 "actor1" Store.empty 0 rfl⟩⟩

/-- C5 witness: a fresh call against the size-5 bucket rule is not blocked,
has `remaining = 4 ≥ 1`, and indeed reports zero reset times. -/
theorem c5_nonblocked_resets_zero_witness :
    (limit false (.bucket bucketRule5) "actor1" 1 Store.empty 0).1.blocked = false ∧
    1 ≤ (limit false (.bucket bucketRule5) "actor1" 1 Store.empty 0).1.remaining ∧
    ((limit false (.bucket bucketRule5) "actor1" 1 Store.empty 0).1.resetSec = 0 ∧
     (limit false (.bucket bucketRule5) "actor1" 1 Store.empty 0).1.resetMs = 0) :=
  ⟨by with_unfolding_all decide, by with_unfolding_all decide,
   c5_nonblocked_resets_zero false (.bucket bucketRule5) "actor1" 1 Store.empty 0
     (by with_unfolding_all decide) (by with_unfolding_all decide)⟩

end SkRateLimiter
